/-
  Verification of the alert-detection engine and scheduling loop of the
  system-monitor backend (src/backend/app/alerts.py, scheduler.py) against
  its natural-language specification.

  The Python code is shallowly embedded: the SQLAlchemy session over the
  `alerts` table is modelled as an explicit `Store` (a list of alert rows in
  insertion order plus the next autoincrement id); `datetime.now()` is an
  explicit `now : Nat` parameter supplied by the caller; percent values are
  modelled as rationals and their textual rendering uses `toString`.
-/
import Mathlib

set_option linter.unusedVariables false

/-! Data model -/

/-- Metric kinds, the keys of the `THRESHOLDS` dict in alerts.py. -/
inductive MetricKind
  | cpu
  | memory
  | disk
  | battery
deriving DecidableEq, Repr

/-- Alert severities, the `"warning"` / `"critical"` strings of alerts.py. -/
inductive Severity
  | warning
  | critical
deriving DecidableEq, Repr

/-- Python's `severity.upper()` applied to the two severity strings. -/
def Severity.upper : Severity → String
  | .warning => "WARNING"
  | .critical => "CRITICAL"

/-- One entry of the `THRESHOLDS` dict: `{"warning": w, "critical": c}`. -/
structure Thresholds where
  warning : ℚ
  critical : ℚ
deriving DecidableEq, Repr

/-- The `THRESHOLDS` table of alerts.py (lines 17-34). -/
def THRESHOLDS : MetricKind → Thresholds
  | .cpu => { warning := 70, critical := 85 }
  | .memory => { warning := 75, critical := 90 }
  | .disk => { warning := 80, critical := 95 }
  | .battery => { warning := 20, critical := 10 }

/-- The `higher_is_worse` flag each call site of `check_metric` passes
(`True` for cpu/memory/disk, `False` for battery). -/
def higherIsWorse : MetricKind → Bool
  | .battery => false
  | _ => true

/-- A row of the `alerts` table (models.py, class `Alert`). -/
structure Alert where
  id : Nat
  timestamp : Nat
  metric_type : MetricKind
  metric_value : ℚ
  threshold_value : ℚ
  severity : Severity
  message : String
  acknowledged : Bool
deriving DecidableEq, Repr

/-- The alerts table reachable through a session: rows in insertion order,
plus the next autoincrement id. -/
structure Store where
  alerts : List Alert
  nextId : Nat
deriving DecidableEq, Repr

/-- The empty alerts table. -/
def store0 : Store := { alerts := [], nextId := 0 }

/-- The `metrics["battery"]` sub-dict (fields used by the alert path). -/
structure BatteryReading where
  percent : ℚ
  is_plugged : Bool
deriving DecidableEq, Repr

/-- The fields of the `get_all_metrics()` record that the alert path reads.
`battery = none` models `metrics["battery"]` being `None`/falsy. -/
structure MetricsRecord where
  cpu_usage_percent : ℚ
  memory_usage_percent : ℚ
  disk_usage_percent : ℚ
  battery : Option BatteryReading
deriving DecidableEq, Repr

/-- The per-kind outcome of `check_metric`, following the spec's
`AlertOutcome`.  `Created` carries the freshly inserted row (the Python
return value); `Updated` carries the pre-update row that the
lookup-before-create query found (the Python function mutates it and
returns `None`); `NoChange` is the no-threshold-crossed `None` return. -/
inductive Outcome
  | Created (alert : Alert)
  | Updated (existing : Alert)
  | NoChange
deriving DecidableEq, Repr

/-- Severity carried by an outcome (`Updated` reports the severity of the
row that was found, which the query constrains to the crossed severity). -/
def Outcome.sev : Outcome → Option Severity
  | .Created a => some a.severity
  | .Updated e => some e.severity
  | .NoChange => none

/-! alerts.py -/

/-- The `metric_names` dict plus `.get(metric_type, metric_type)` in
`generate_alert_message` (all four kinds are present in the dict). -/
def metricNames : MetricKind → String
  | .cpu => "CPU usage"
  | .memory => "Memory usage"
  | .disk => "Disk usage"
  | .battery => "Battery level"

/-- The function `generate_alert_message` (alerts.py lines 183-200). -/
def generate_alert_message (metric_type : MetricKind) (value : ℚ) (threshold : ℚ)
    (severity : Severity) : String :=
  let metric_name := metricNames metric_type
  let severity_emoji := if severity = .warning then "⚠️" else "🔴"
  if metric_type = .battery then
    s!"{severity_emoji} {severity.upper}: {metric_name} is low at {value}% (threshold: {threshold}%)"
  else
    s!"{severity_emoji} {severity.upper}: {metric_name} is high at {value}% (threshold: {threshold}%)"

/-- Severity determination of `check_metric` (alerts.py lines 122-141):
returns the crossed severity together with `threshold_crossed`. -/
def crossedSeverity (value : ℚ) (thresholds : Thresholds) (higher_is_worse : Bool) :
    Option (Severity × ℚ) :=
  if higher_is_worse then
    if value ≥ thresholds.critical then some (.critical, thresholds.critical)
    else if value ≥ thresholds.warning then some (.warning, thresholds.warning)
    else none
  else
    if value ≤ thresholds.critical then some (.critical, thresholds.critical)
    else if value ≤ thresholds.warning then some (.warning, thresholds.warning)
    else none

/-- The filter of the dedup query (alerts.py lines 148-152):
matching `metric_type`, matching `severity`, `acknowledged == False`. -/
def unackMatch (metric_type : MetricKind) (severity : Severity) (a : Alert) : Bool :=
  decide (a.metric_type = metric_type) && decide (a.severity = severity) && !a.acknowledged

/-- The `db.query(Alert).filter(...).first()` call of the dedup lookup: first row of
the table satisfying the filter. -/
def findUnack (db : Store) (metric_type : MetricKind) (severity : Severity) : Option Alert :=
  db.alerts.find? (unackMatch metric_type severity)

/-- In-place mutation of the first row satisfying `p` (the SQLAlchemy
object found by `.first()` is mutated and committed). -/
def updateFirst (p : α → Bool) (f : α → α) : List α → List α
  | [] => []
  | a :: rest => if p a then f a :: rest else a :: updateFirst p f rest

/-- The function `check_metric` (alerts.py lines 103-180), with the session made
explicit: returns the per-kind outcome and the table after commit. -/
def check_metric (metric_type : MetricKind) (value : ℚ) (thresholds : Thresholds)
    (higher_is_worse : Bool) (db : Store) (now : Nat) : Outcome × Store :=
  match crossedSeverity value thresholds higher_is_worse with
  | none => (.NoChange, db)
  | some (severity, threshold_crossed) =>
    match findUnack db metric_type severity with
    | some existing_alert =>
      (.Updated existing_alert,
        { db with
          alerts := updateFirst (unackMatch metric_type severity)
            (fun a => { a with metric_value := value, timestamp := now }) db.alerts })
    | none =>
      let message := generate_alert_message metric_type value threshold_crossed severity
      let alert : Alert :=
        { id := db.nextId
          timestamp := now
          metric_type := metric_type
          metric_value := value
          threshold_value := threshold_crossed
          severity := severity
          message := message
          acknowledged := false }
      (.Created alert, { alerts := db.alerts ++ [alert], nextId := db.nextId + 1 })

/-- Python's `if cpu_alert: new_alerts.append(cpu_alert)` — only a freshly created
alert (a non-`None` return of `check_metric`) is appended. -/
def appendCreated (l : List Alert) : Outcome → List Alert
  | .Created a => l ++ [a]
  | _ => l

/-- The function `check_and_create_alerts` (alerts.py lines 37-100): checks cpu, memory,
disk in order, then battery only when present and not plugged in; returns
the list of newly created alerts and the table after all commits. -/
def check_and_create_alerts (metrics : MetricsRecord) (db : Store) (now : Nat) :
    List Alert × Store :=
  let r1 := check_metric .cpu metrics.cpu_usage_percent (THRESHOLDS .cpu) true db now
  let new1 := appendCreated [] r1.1
  let r2 := check_metric .memory metrics.memory_usage_percent (THRESHOLDS .memory) true r1.2 now
  let new2 := appendCreated new1 r2.1
  let r3 := check_metric .disk metrics.disk_usage_percent (THRESHOLDS .disk) true r2.2 now
  let new3 := appendCreated new2 r3.1
  match metrics.battery with
  | some b =>
    if !b.is_plugged then
      let r4 := check_metric .battery b.percent (THRESHOLDS .battery) false r3.2 now
      (appendCreated new3 r4.1, r4.2)
    else
      (new3, r3.2)
  | none => (new3, r3.2)

/-- The function `acknowledge_alert` (alerts.py lines 214-223): looks up the first row
with the given id, flips `acknowledged` to `True`, returns whether a row
was found. -/
def acknowledge_alert (alert_id : Nat) (db : Store) : Bool × Store :=
  match db.alerts.find? (fun a => decide (a.id = alert_id)) with
  | some _ =>
    (true,
      { db with
        alerts := updateFirst (fun a => decide (a.id = alert_id))
          (fun a => { a with acknowledged := true }) db.alerts })
  | none => (false, db)

/-! Operation sequences over the store -/

/-- The operations that mutate the alerts table: an evaluation pass over a
sampled record, or a user acknowledgment. -/
inductive Op
  | eval (metrics : MetricsRecord) (now : Nat)
  | ack (alert_id : Nat)

/-- Store effect of one operation. -/
def applyOp (db : Store) : Op → Store
  | .eval m now => (check_and_create_alerts m db now).2
  | .ack i => (acknowledge_alert i db).2

/-- Store reached by a sequence of operations. -/
def runOps (db : Store) : List Op → Store
  | [] => db
  | op :: rest => runOps (applyOp db op) rest

/-! Spec-side predicates -/

/-- The message format exactly as §6 of the spec words it:
`"{emoji} {SEVERITY}: {metric name} is {high|low} at {value}% (threshold: {threshold}%)"`
with ⚠️ for warning, 🔴 for critical, and "is low at" only for battery. -/
def specMessage (kind : MetricKind) (value : ℚ) (threshold : ℚ) (severity : Severity) : String :=
  (if severity = .warning then "⚠️" else "🔴") ++ " " ++ severity.upper ++ ": " ++
    metricNames kind ++ (if kind = .battery then " is low at " else " is high at ") ++
    toString value ++ "% (threshold: " ++ toString threshold ++ "%)"

/-- The §3 invariant exactly as claimed: at most one unacknowledged alert
row per metric kind. -/
def perKindUnique (db : Store) : Prop :=
  ∀ k : MetricKind,
    db.alerts.countP (fun a => decide (a.metric_type = k) && !a.acknowledged) ≤ 1

/-- The amended invariant: at most one unacknowledged alert row per
(metric kind, severity) pair. -/
def perKindSeverityUnique (db : Store) : Prop :=
  ∀ (k : MetricKind) (s : Severity), db.alerts.countP (unackMatch k s) ≤ 1

/-! Helper lemmas about `updateFirst`, `find?` and `countP` -/

theorem updateFirst_countP_eq {α : Type} (p q : α → Bool) (f : α → α)
    (h : ∀ a, p (f a) = p a) :
    ∀ l : List α, List.countP p (updateFirst q f l) = List.countP p l
  | [] => rfl
  | a :: l => by
    simp only [updateFirst]
    split
    · simp [List.countP_cons, h a]
    · simp [List.countP_cons, updateFirst_countP_eq p q f h l]

theorem updateFirst_countP_le {α : Type} (p q : α → Bool) (f : α → α)
    (h : ∀ a, p (f a) = true → p a = true) :
    ∀ l : List α, List.countP p (updateFirst q f l) ≤ List.countP p l
  | [] => le_refl _
  | a :: l => by
    simp only [updateFirst]
    split
    · simp only [List.countP_cons]
      have h1 : (if p (f a) = true then 1 else 0) ≤ (if p a = true then 1 else 0) := by
        by_cases hpa : p (f a) = true
        · rw [if_pos hpa, if_pos (h a hpa)]
        · rw [if_neg hpa]
          split <;> omega
      omega
    · simp only [List.countP_cons]
      have h2 := updateFirst_countP_le p q f h l
      omega

theorem find?_decomp {α : Type} (p : α → Bool) :
    ∀ {l : List α} {a : α}, l.find? p = some a →
      ∃ l₁ l₂, l = l₁ ++ a :: l₂ ∧ (∀ x ∈ l₁, p x = false) ∧ p a = true
  | [], a, h => by simp [List.find?] at h
  | b :: l, a, h => by
    by_cases hb : p b = true
    · rw [List.find?_cons_of_pos _ hb] at h
      obtain rfl : b = a := by injection h
      exact ⟨[], l, rfl, by simp, hb⟩
    · rw [List.find?_cons_of_neg _ hb] at h
      obtain ⟨l₁, l₂, rfl, h₁, h₂⟩ := find?_decomp p h
      refine ⟨b :: l₁, l₂, rfl, ?_, h₂⟩
      intro x hx
      rcases List.mem_cons.mp hx with rfl | hx
      · exact Bool.eq_false_iff.mpr hb
      · exact h₁ x hx

theorem updateFirst_append_of {α : Type} (p : α → Bool) (f : α → α) :
    ∀ (l₁ : List α) (a : α) (l₂ : List α), (∀ x ∈ l₁, p x = false) → p a = true →
      updateFirst p f (l₁ ++ a :: l₂) = l₁ ++ f a :: l₂
  | [], a, l₂, _, h₂ => by simp [updateFirst, h₂]
  | b :: l₁, a, l₂, h₁, h₂ => by
    have hb : p b = false := h₁ b (List.mem_cons_self b l₁)
    simp [updateFirst, hb,
      updateFirst_append_of p f l₁ a l₂ (fun x hx => h₁ x (List.mem_cons_of_mem _ hx)) h₂]

theorem find?_append_none {α : Type} (p : α → Bool) :
    ∀ (l₁ l₂ : List α), l₁.find? p = none → (l₁ ++ l₂).find? p = l₂.find? p
  | [], _, _ => rfl
  | b :: l₁, l₂, h => by
    have hb : ¬p b = true := by
      intro hpb
      rw [List.find?_cons_of_pos _ hpb] at h
      exact Option.some_ne_none b h
    rw [List.find?_cons_of_neg _ hb] at h
    simpa [List.cons_append, List.find?_cons_of_neg _ hb] using find?_append_none p l₁ l₂ h

/-! Structural lemmas about `check_metric` -/

theorem unackMatch_value_timestamp (k : MetricKind) (s : Severity) (a : Alert) (v : ℚ) (n : Nat) :
    unackMatch k s { a with metric_value := v, timestamp := n } = unackMatch k s a := by
  cases a
  rfl

theorem check_metric_NoChange (k : MetricKind) (v : ℚ) (th : Thresholds) (hiw : Bool)
    (db : Store) (now : Nat) (hcs : crossedSeverity v th hiw = none) :
    check_metric k v th hiw db now = (.NoChange, db) := by
  simp [check_metric, hcs]

theorem check_metric_Updated (k : MetricKind) (v : ℚ) (th : Thresholds) (hiw : Bool)
    (db : Store) (now : Nat) (s : Severity) (t : ℚ) (e : Alert)
    (hcs : crossedSeverity v th hiw = some (s, t)) (hf : findUnack db k s = some e) :
    check_metric k v th hiw db now =
      (.Updated e,
        { db with
          alerts := updateFirst (unackMatch k s)
            (fun a => { a with metric_value := v, timestamp := now }) db.alerts }) := by
  simp [check_metric, hcs, hf]

theorem check_metric_Created (k : MetricKind) (v : ℚ) (th : Thresholds) (hiw : Bool)
    (db : Store) (now : Nat) (s : Severity) (t : ℚ)
    (hcs : crossedSeverity v th hiw = some (s, t)) (hf : findUnack db k s = none) :
    check_metric k v th hiw db now =
      (.Created
        { id := db.nextId
          timestamp := now
          metric_type := k
          metric_value := v
          threshold_value := t
          severity := s
          message := generate_alert_message k v t s
          acknowledged := false },
        { alerts := db.alerts ++
            [{ id := db.nextId
               timestamp := now
               metric_type := k
               metric_value := v
               threshold_value := t
               severity := s
               message := generate_alert_message k v t s
               acknowledged := false }]
          nextId := db.nextId + 1 }) := by
  simp [check_metric, hcs, hf]

theorem unackMatch_mk (k' : MetricKind) (s' : Severity) (i n : Nat) (k : MetricKind)
    (v t : ℚ) (s : Severity) (msg : String) (ack : Bool) :
    unackMatch k' s' ⟨i, n, k, v, t, s, msg, ack⟩ =
      (decide (k = k') && decide (s = s') && !ack) := rfl

/-! Preservation of the per-(kind, severity) uniqueness invariant -/

theorem check_metric_preserves (k : MetricKind) (v : ℚ) (th : Thresholds) (hiw : Bool)
    (db : Store) (now : Nat) (h : perKindSeverityUnique db) :
    perKindSeverityUnique (check_metric k v th hiw db now).2 := by
  cases hcs : crossedSeverity v th hiw with
  | none =>
    rw [check_metric_NoChange k v th hiw db now hcs]
    exact h
  | some st =>
    obtain ⟨s, t⟩ := st
    cases hf : findUnack db k s with
    | some e =>
      rw [check_metric_Updated k v th hiw db now s t e hcs hf]
      intro k' s'
      have := updateFirst_countP_eq (unackMatch k' s') (unackMatch k s)
        (fun a => { a with metric_value := v, timestamp := now })
        (fun a => unackMatch_value_timestamp k' s' a v now) db.alerts
      simpa [this] using h k' s'
    | none =>
      rw [check_metric_Created k v th hiw db now s t hcs hf]
      intro k' s'
      rw [List.countP_append]
      by_cases hks : k = k' ∧ s = s'
      · obtain ⟨rfl, rfl⟩ := hks
        have h0 : db.alerts.countP (unackMatch k s) = 0 :=
          List.countP_eq_zero.mpr (fun a ha => List.find?_eq_none.mp hf a ha)
        rw [h0]
        simp [unackMatch_mk]
      · have hrec : (decide (k = k') && decide (s = s') && !false) = false := by
          rcases not_and_or.mp hks with hk | hs
          · simp [decide_eq_false hk]
          · simp [decide_eq_false hs]
        rw [List.countP_cons, List.countP_nil, unackMatch_mk, hrec]
        simpa using h k' s'

theorem acknowledge_preserves (i : Nat) (db : Store) (h : perKindSeverityUnique db) :
    perKindSeverityUnique (acknowledge_alert i db).2 := by
  unfold acknowledge_alert
  split
  · intro k s
    refine le_trans (updateFirst_countP_le (unackMatch k s) _ _ ?_ db.alerts) (h k s)
    intro a ha
    exfalso
    cases a
    simp [unackMatch] at ha
  · exact h

theorem check_and_create_alerts_preserves (m : MetricsRecord) (db : Store) (now : Nat)
    (h : perKindSeverityUnique db) :
    perKindSeverityUnique (check_and_create_alerts m db now).2 := by
  unfold check_and_create_alerts
  have h1 := check_metric_preserves .cpu m.cpu_usage_percent (THRESHOLDS .cpu) true db now h
  have h2 := check_metric_preserves .memory m.memory_usage_percent (THRESHOLDS .memory) true
    _ now h1
  have h3 := check_metric_preserves .disk m.disk_usage_percent (THRESHOLDS .disk) true
    _ now h2
  cases m.battery with
  | none => exact h3
  | some b =>
    by_cases hp : !b.is_plugged
    · simp only [hp, if_true]
      exact check_metric_preserves .battery b.percent (THRESHOLDS .battery) false _ now h3
    · simp only [hp, if_false]
      exact h3

theorem runOps_preserves (ops : List Op) :
    ∀ db : Store, perKindSeverityUnique db → perKindSeverityUnique (runOps db ops) := by
  induction ops with
  | nil => intro db h; exact h
  | cons op rest ih =>
    intro db h
    show perKindSeverityUnique (runOps (applyOp db op) rest)
    apply ih
    cases op with
    | eval m now => exact check_and_create_alerts_preserves m db now h
    | ack i => exact acknowledge_preserves i db h

/-! Claim C4 -/

/-- Claim C4 (amended): in every state reachable from the empty store by any
sequence of evaluation (`check_and_create_alerts`) and acknowledgment
(`acknowledge_alert`) operations, for each (metric kind, severity) pair
there is at most one unacknowledged alert row.  (The claim as stated —
at most one unacknowledged row per metric kind alone — is refuted by
`C4_counterexample` below: a warning and a critical alert for the same
kind are live simultaneously.) -/
theorem C4_per_pair_uniqueness (ops : List Op) :
    perKindSeverityUnique (runOps store0 ops) :=
  runOps_preserves ops store0 (fun _ _ => by simp [store0])

/-- A state reachable from the empty store by two evaluations: a cpu
sample of 75 (creates a warning alert) followed by a cpu sample of 88
(creates a critical alert alongside it). -/
def c4store : Store :=
  runOps store0
    [.eval { cpu_usage_percent := 75, memory_usage_percent := 0, disk_usage_percent := 0,
             battery := none } 1,
     .eval { cpu_usage_percent := 88, memory_usage_percent := 0, disk_usage_percent := 0,
             battery := none } 2]

/-- Claim C4, counterexample: the reachable state `c4store` holds two
unacknowledged cpu alerts at once, so the per-kind uniqueness claim
(`perKindUnique`, §3 of the spec as stated) is false. -/
theorem C4_counterexample :
    1 < c4store.alerts.countP (fun a => decide (a.metric_type = .cpu) && !a.acknowledged) ∧
      ¬perKindUnique c4store :=
  ⟨by decide, fun h => absurd (h .cpu) (by decide)⟩

/-! Claim C3 -/

/-- One step of the §8 end-to-end scenario: evaluate one cpu sample the
way `check_and_create_alerts` does (thresholds from the table,
`higher_is_worse=True`), recording the outcome. -/
def cpuStep (acc : List Outcome × Store) (vn : ℚ × Nat) : List Outcome × Store :=
  let r := check_metric .cpu vn.1 (THRESHOLDS .cpu) true acc.2 vn.2
  (acc.1 ++ [r.1], r.2)

/-- The §8 end-to-end scenario: the cpu value sequence [60, 75, 88, 88, 65]
fed into an initially empty store at instants 1..5. -/
def cpuScenario : List Outcome × Store :=
  [((60 : ℚ), 1), (75, 2), (88, 3), (88, 4), (65, 5)].foldl cpuStep ([], store0)

/-- The warning alert the scenario creates at value 75 (instant 2). -/
def scenarioWarning : Alert :=
  { id := 0, timestamp := 2, metric_type := .cpu, metric_value := 75, threshold_value := 70,
    severity := .warning, message := generate_alert_message .cpu 75 70 .warning,
    acknowledged := false }

/-- The critical alert the scenario creates at value 88 (instant 3). -/
def scenarioCritical : Alert :=
  { id := 1, timestamp := 3, metric_type := .cpu, metric_value := 88, threshold_value := 85,
    severity := .critical, message := generate_alert_message .cpu 88 85 .critical,
    acknowledged := false }

/-- Claim C3: feeding the CPU sequence [60, 75, 88, 88, 65] to an empty store
yields the outcomes [NoChange, Created(warning), Created(critical),
Updated(critical), NoChange]; afterwards the warning alert (value 75,
untouched by the final drop below warning) and the refreshed critical
alert (value 88, timestamp of instant 4) are both live and
unacknowledged — no alert was auto-cleared by the return to normal. -/
theorem C3_end_to_end :
    cpuScenario =
      ([.NoChange, .Created scenarioWarning, .Created scenarioCritical,
        .Updated scenarioCritical, .NoChange],
        { alerts := [scenarioWarning, { scenarioCritical with timestamp := 4 }],
          nextId := 2 }) ∧
      scenarioWarning.acknowledged = false ∧
      { scenarioCritical with timestamp := 4 }.acknowledged = false := by
  refine ⟨by decide, rfl, rfl⟩

/-! Arithmetic characterization of `crossedSeverity` -/

theorem crossedSeverity_hiw_none (v w c : ℚ) (h : v < w) (hwc : w ≤ c) :
    crossedSeverity v ⟨w, c⟩ true = none := by
  unfold crossedSeverity
  rw [if_pos rfl, if_neg (by simp only; intro hc; linarith), if_neg (by simp only; intro hw; linarith)]

theorem crossedSeverity_hiw_warning (v w c : ℚ) (h1 : w ≤ v) (h2 : v < c) :
    crossedSeverity v ⟨w, c⟩ true = some (.warning, w) := by
  unfold crossedSeverity
  rw [if_pos rfl, if_neg (by simp only; intro hc; linarith), if_pos (by simp only; linarith)]

theorem crossedSeverity_hiw_critical (v w c : ℚ) (h : c ≤ v) :
    crossedSeverity v ⟨w, c⟩ true = some (.critical, c) := by
  unfold crossedSeverity
  rw [if_pos rfl, if_pos (by simp only; linarith)]

theorem crossedSeverity_low_none (v w c : ℚ) (h : w < v) (hcw : c ≤ w) :
    crossedSeverity v ⟨w, c⟩ false = none := by
  unfold crossedSeverity
  rw [if_neg (by simp), if_neg (by simp only; intro hc; linarith),
    if_neg (by simp only; intro hw; linarith)]

theorem crossedSeverity_low_warning (v w c : ℚ) (h1 : c < v) (h2 : v ≤ w) :
    crossedSeverity v ⟨w, c⟩ false = some (.warning, w) := by
  unfold crossedSeverity
  rw [if_neg (by simp), if_neg (by simp only; intro hc; linarith), if_pos (by simp only; linarith)]

theorem crossedSeverity_low_critical (v w c : ℚ) (h : v ≤ c) :
    crossedSeverity v ⟨w, c⟩ false = some (.critical, c) := by
  unfold crossedSeverity
  rw [if_neg (by simp), if_pos (by simp only; linarith)]

/-- The outcome of `check_metric` carries exactly the crossed severity:
on update the dedup query constrains the found row's severity, on create
the new row is built with it. -/
theorem check_metric_sev (k : MetricKind) (v : ℚ) (th : Thresholds) (hiw : Bool)
    (db : Store) (now : Nat) (s : Severity) (t : ℚ)
    (hcs : crossedSeverity v th hiw = some (s, t)) :
    ((check_metric k v th hiw db now).1).sev = some s := by
  cases hf : findUnack db k s with
  | some e =>
    rw [check_metric_Updated k v th hiw db now s t e hcs hf]
    have he := List.find?_some hf
    simp only [unackMatch, Bool.and_eq_true, decide_eq_true_eq] at he
    simp [Outcome.sev, he.1.2]
  | none =>
    rw [check_metric_Created k v th hiw db now s t hcs hf]
    rfl

/-! Claim C2 -/

/-- Claim C2: severity classification.  For every kind evaluated with
`higher_is_worse=true` (cpu, memory, disk — `higherIsWorse` battery-free):
`NoChange` for a value strictly below warning, a warning-severity outcome
for `warning <= v < critical`, a critical-severity outcome for
`v >= critical`; for battery (`higher_is_worse=false`) symmetric with `<=`
comparisons.  The critical branch is taken first in both polarities, so a
value meeting both thresholds yields exactly the critical classification,
never both. -/
theorem C2_severity_classification (v : ℚ) (db : Store) (now : Nat) :
    (∀ k : MetricKind, higherIsWorse k = true →
      (v < (THRESHOLDS k).warning →
        check_metric k v (THRESHOLDS k) true db now = (.NoChange, db)) ∧
      ((THRESHOLDS k).warning ≤ v → v < (THRESHOLDS k).critical →
        crossedSeverity v (THRESHOLDS k) true = some (.warning, (THRESHOLDS k).warning) ∧
        ((check_metric k v (THRESHOLDS k) true db now).1).sev = some .warning) ∧
      ((THRESHOLDS k).critical ≤ v →
        crossedSeverity v (THRESHOLDS k) true = some (.critical, (THRESHOLDS k).critical) ∧
        ((check_metric k v (THRESHOLDS k) true db now).1).sev = some .critical)) ∧
    ((THRESHOLDS MetricKind.battery).warning < v →
      check_metric .battery v (THRESHOLDS .battery) false db now = (.NoChange, db)) ∧
    ((THRESHOLDS MetricKind.battery).critical < v →
      v ≤ (THRESHOLDS MetricKind.battery).warning →
      crossedSeverity v (THRESHOLDS .battery) false =
        some (.warning, (THRESHOLDS MetricKind.battery).warning) ∧
      ((check_metric .battery v (THRESHOLDS .battery) false db now).1).sev = some .warning) ∧
    (v ≤ (THRESHOLDS MetricKind.battery).critical →
      crossedSeverity v (THRESHOLDS .battery) false =
        some (.critical, (THRESHOLDS MetricKind.battery).critical) ∧
      ((check_metric .battery v (THRESHOLDS .battery) false db now).1).sev = some .critical) := by
  refine ⟨?_, ?_, ?_, ?_⟩
  · intro k hk
    cases k with
    | battery => simp [higherIsWorse] at hk
    | cpu =>
      refine ⟨fun hv => ?_, fun h1 h2 => ?_, fun h => ?_⟩
      · exact check_metric_NoChange _ _ _ _ _ _ (crossedSeverity_hiw_none v 70 85 hv (by norm_num))
      · have hc := crossedSeverity_hiw_warning v 70 85 h1 h2
        exact ⟨hc, check_metric_sev _ _ _ _ db now _ _ hc⟩
      · have hc := crossedSeverity_hiw_critical v 70 85 h
        exact ⟨hc, check_metric_sev _ _ _ _ db now _ _ hc⟩
    | memory =>
      refine ⟨fun hv => ?_, fun h1 h2 => ?_, fun h => ?_⟩
      · exact check_metric_NoChange _ _ _ _ _ _ (crossedSeverity_hiw_none v 75 90 hv (by norm_num))
      · have hc := crossedSeverity_hiw_warning v 75 90 h1 h2
        exact ⟨hc, check_metric_sev _ _ _ _ db now _ _ hc⟩
      · have hc := crossedSeverity_hiw_critical v 75 90 h
        exact ⟨hc, check_metric_sev _ _ _ _ db now _ _ hc⟩
    | disk =>
      refine ⟨fun hv => ?_, fun h1 h2 => ?_, fun h => ?_⟩
      · exact check_metric_NoChange _ _ _ _ _ _ (crossedSeverity_hiw_none v 80 95 hv (by norm_num))
      · have hc := crossedSeverity_hiw_warning v 80 95 h1 h2
        exact ⟨hc, check_metric_sev _ _ _ _ db now _ _ hc⟩
      · have hc := crossedSeverity_hiw_critical v 80 95 h
        exact ⟨hc, check_metric_sev _ _ _ _ db now _ _ hc⟩
  · intro hv
    exact check_metric_NoChange _ _ _ _ _ _ (crossedSeverity_low_none v 20 10 hv (by norm_num))
  · intro h1 h2
    have hc := crossedSeverity_low_warning v 20 10 h1 h2
    exact ⟨hc, check_metric_sev _ _ _ _ db now _ _ hc⟩
  · intro h
    have hc := crossedSeverity_low_critical v 20 10 h
    exact ⟨hc, check_metric_sev _ _ _ _ db now _ _ hc⟩

/-- Witness for C2 at concrete inputs: a cpu value of 60 yields `NoChange`
against the defaults, and a battery value of 10 while discharging is
classified critical. -/
theorem C2_witness :
    check_metric .cpu 60 (THRESHOLDS .cpu) true store0 0 = (.NoChange, store0) ∧
    ((check_metric .battery 10 (THRESHOLDS .battery) false store0 0).1).sev =
      some .critical :=
  ⟨((C2_severity_classification 60 store0 0).1 .cpu rfl).1 (by decide),
   (((C2_severity_classification 10 store0 0).2.2.2) (by decide)).2⟩

/-! Claim C1 -/

/-- Claim C1: the deduplication contract.  If a crossing of severity `s` for
kind `k` is evaluated while the dedup query finds an unacknowledged
`(k, s)` alert `e`, then the outcome is `Updated e`, no row is inserted
(the autoincrement counter is untouched and the table keeps its shape):
only `e`'s slot changes, to `e` with the current sample's value and
timestamp.  Hence, starting from a store with no unacknowledged `(k, s)`
alert, feeding the same crossing value twice yields `Created` then
`Updated` of the created row — never two `Created`. -/
theorem C1_dedup_contract (k : MetricKind) (v : ℚ) (db : Store) (s : Severity) (t : ℚ)
    (hcross : crossedSeverity v (THRESHOLDS k) (higherIsWorse k) = some (s, t)) :
    (∀ e, findUnack db k s = some e → ∀ now : Nat,
      (check_metric k v (THRESHOLDS k) (higherIsWorse k) db now).1 = .Updated e ∧
      (check_metric k v (THRESHOLDS k) (higherIsWorse k) db now).2.nextId = db.nextId ∧
      ∃ l₁ l₂, db.alerts = l₁ ++ e :: l₂ ∧
        (check_metric k v (THRESHOLDS k) (higherIsWorse k) db now).2.alerts =
          l₁ ++ { e with metric_value := v, timestamp := now } :: l₂) ∧
    (findUnack db k s = none → ∀ now₁ now₂ : Nat,
      ∃ a, (check_metric k v (THRESHOLDS k) (higherIsWorse k) db now₁).1 = .Created a ∧
        (check_metric k v (THRESHOLDS k) (higherIsWorse k)
          (check_metric k v (THRESHOLDS k) (higherIsWorse k) db now₁).2 now₂).1 =
          .Updated a) := by
  constructor
  · intro e hfind now
    have heq := check_metric_Updated k v (THRESHOLDS k) (higherIsWorse k) db now s t e
      hcross hfind
    refine ⟨by rw [heq], by rw [heq], ?_⟩
    obtain ⟨l₁, l₂, hl, h₁, h₂⟩ := find?_decomp (unackMatch k s) hfind
    refine ⟨l₁, l₂, hl, ?_⟩
    rw [heq]
    show updateFirst (unackMatch k s)
      (fun a => { a with metric_value := v, timestamp := now }) db.alerts = _
    rw [hl, updateFirst_append_of _ _ l₁ e l₂ h₁ h₂]
  · intro hnone now₁ now₂
    have heq1 := check_metric_Created k v (THRESHOLDS k) (higherIsWorse k) db now₁ s t
      hcross hnone
    refine ⟨{ id := db.nextId, timestamp := now₁, metric_type := k, metric_value := v,
              threshold_value := t, severity := s,
              message := generate_alert_message k v t s, acknowledged := false },
      by rw [heq1], ?_⟩
    rw [heq1]
    dsimp only
    have hfind2 : findUnack
        { alerts := db.alerts ++
            [{ id := db.nextId, timestamp := now₁, metric_type := k, metric_value := v,
               threshold_value := t, severity := s,
               message := generate_alert_message k v t s, acknowledged := false }]
          nextId := db.nextId + 1 } k s =
        some { id := db.nextId, timestamp := now₁, metric_type := k, metric_value := v,
               threshold_value := t, severity := s,
               message := generate_alert_message k v t s, acknowledged := false } := by
      show ((db.alerts ++ _).find? (unackMatch k s)) = _
      rw [find?_append_none _ db.alerts _ hnone]
      exact List.find?_cons_of_pos _ (by rw [unackMatch_mk]; simp)
    rw [check_metric_Updated k v (THRESHOLDS k) (higherIsWorse k) _ now₂ s t _ hcross hfind2]

/-- Witness for C1 at a concrete input: from the empty store, the cpu
value 75 (a warning crossing) fed twice yields `Created` then `Updated`
of the same row. -/
theorem C1_dedup_contract_witness :
    ∃ a, (check_metric .cpu 75 (THRESHOLDS .cpu) (higherIsWorse .cpu) store0 1).1 =
        .Created a ∧
      (check_metric .cpu 75 (THRESHOLDS .cpu) (higherIsWorse .cpu)
        (check_metric .cpu 75 (THRESHOLDS .cpu) (higherIsWorse .cpu) store0 1).2 2).1 =
        .Updated a :=
  (C1_dedup_contract .cpu 75 store0 .warning 70 (by decide)).2 (by decide) 1 2

/-! Claim C7 -/

/-- Claim C7: side-effect discipline of one metric evaluation.  A `NoChange`
outcome leaves the store completely unchanged; a `Created` outcome appends
exactly the returned row (carrying the current sample); an `Updated`
outcome keeps the table's length and rewrites exactly the found row's slot
with the current sample; and the table never shrinks — no evaluation
deletes an alert. -/
theorem C7_side_effect_discipline (k : MetricKind) (v : ℚ) (th : Thresholds) (hiw : Bool)
    (db : Store) (now : Nat) :
    ((check_metric k v th hiw db now).1 = .NoChange →
      (check_metric k v th hiw db now).2 = db) ∧
    (∀ a, (check_metric k v th hiw db now).1 = .Created a →
      (check_metric k v th hiw db now).2.alerts = db.alerts ++ [a] ∧
      a.metric_value = v ∧ a.timestamp = now ∧ a.acknowledged = false) ∧
    (∀ e, (check_metric k v th hiw db now).1 = .Updated e →
      (check_metric k v th hiw db now).2.alerts.length = db.alerts.length ∧
      ∃ l₁ l₂, db.alerts = l₁ ++ e :: l₂ ∧
        (check_metric k v th hiw db now).2.alerts =
          l₁ ++ { e with metric_value := v, timestamp := now } :: l₂) ∧
    db.alerts.length ≤ (check_metric k v th hiw db now).2.alerts.length := by
  cases hcs : crossedSeverity v th hiw with
  | none =>
    rw [check_metric_NoChange k v th hiw db now hcs]
    exact ⟨fun _ => rfl, fun a ha => by simp at ha, fun e he => by simp at he, le_refl _⟩
  | some st =>
    obtain ⟨s, t⟩ := st
    cases hf : findUnack db k s with
    | some e0 =>
      rw [check_metric_Updated k v th hiw db now s t e0 hcs hf]
      obtain ⟨l₁, l₂, hl, h₁, h₂⟩ := find?_decomp (unackMatch k s) hf
      have hupd : updateFirst (unackMatch k s)
          (fun a => { a with metric_value := v, timestamp := now }) db.alerts =
          l₁ ++ { e0 with metric_value := v, timestamp := now } :: l₂ := by
        rw [hl, updateFirst_append_of _ _ l₁ e0 l₂ h₁ h₂]
      refine ⟨fun hno => by simp at hno, fun a ha => by simp at ha, fun e he => ?_, ?_⟩
      · obtain rfl : e0 = e := by simpa using he
        refine ⟨?_, l₁, l₂, hl, hupd⟩
        show (updateFirst _ _ db.alerts).length = _
        rw [hupd, hl]
        simp
      · show db.alerts.length ≤ (updateFirst _ _ db.alerts).length
        rw [hupd, hl]
        simp
    | none =>
      rw [check_metric_Created k v th hiw db now s t hcs hf]
      refine ⟨fun hno => by simp at hno, fun a ha => ?_, fun e he => by simp at he, by simp⟩
      obtain rfl : _ = a := by simpa using ha
      exact ⟨rfl, rfl, rfl, rfl⟩

/-- Witness for C7 at a concrete input: a cpu value of 50 against the
defaults is `NoChange` and leaves the empty store untouched. -/
theorem C7_side_effect_discipline_witness :
    (check_metric .cpu 50 (THRESHOLDS .cpu) true store0 7).2 = store0 :=
  (C7_side_effect_discipline .cpu 50 (THRESHOLDS .cpu) true store0 7).1 (by decide)

/-! Claim C10 -/

/-- Claim C10: refreshing an existing unacknowledged alert mutates only its
`metric_value` and `timestamp`.  When the outcome is `Updated e`, the store
rewrites exactly `e`'s slot with a row that keeps `e`'s id, metric_type,
severity, threshold_value, acknowledged flag and message (in particular
the message still quotes the original crossing's value, not the newly
written `metric_value`), while `metric_value` and `timestamp` become the
current sample's; the autoincrement counter and all other rows are
untouched. -/
theorem C10_update_touches_only_value_timestamp (k : MetricKind) (v : ℚ) (th : Thresholds)
    (hiw : Bool) (db : Store) (now : Nat) (e : Alert)
    (he : (check_metric k v th hiw db now).1 = .Updated e) :
    ∃ l₁ l₂, db.alerts = l₁ ++ e :: l₂ ∧
      (check_metric k v th hiw db now).2.alerts =
        l₁ ++ { e with metric_value := v, timestamp := now } :: l₂ ∧
      (check_metric k v th hiw db now).2.nextId = db.nextId ∧
      ({ e with metric_value := v, timestamp := now } : Alert).id = e.id ∧
      ({ e with metric_value := v, timestamp := now } : Alert).metric_type = e.metric_type ∧
      ({ e with metric_value := v, timestamp := now } : Alert).severity = e.severity ∧
      ({ e with metric_value := v, timestamp := now } : Alert).threshold_value =
        e.threshold_value ∧
      ({ e with metric_value := v, timestamp := now } : Alert).acknowledged = e.acknowledged ∧
      ({ e with metric_value := v, timestamp := now } : Alert).message = e.message ∧
      ({ e with metric_value := v, timestamp := now } : Alert).metric_value = v ∧
      ({ e with metric_value := v, timestamp := now } : Alert).timestamp = now := by
  cases hcs : crossedSeverity v th hiw with
  | none =>
    rw [check_metric_NoChange k v th hiw db now hcs] at he
    simp at he
  | some st =>
    obtain ⟨s, t⟩ := st
    cases hf : findUnack db k s with
    | some e0 =>
      have heq := check_metric_Updated k v th hiw db now s t e0 hcs hf
      rw [heq] at he
      obtain rfl : e0 = e := by simpa using he
      obtain ⟨l₁, l₂, hl, h₁, h₂⟩ := find?_decomp (unackMatch k s) hf
      refine ⟨l₁, l₂, hl, ?_, by rw [heq], ?_, ?_, ?_, ?_, ?_, ?_, ?_, ?_⟩
      · rw [heq]
        show updateFirst _ _ db.alerts = _
        rw [hl, updateFirst_append_of _ _ l₁ e0 l₂ h₁ h₂]
      all_goals rfl
    | none =>
      rw [check_metric_Created k v th hiw db now s t hcs hf] at he
      simp at he

/-- The store holding the single warning alert created by a cpu sample of
75 at instant 1 (used to witness C6 and C10). -/
def exampleStore : Store := (check_metric .cpu 75 (THRESHOLDS .cpu) true store0 1).2

/-- The alert row that `exampleStore` holds. -/
def exampleAlert : Alert :=
  { id := 0, timestamp := 1, metric_type := .cpu, metric_value := 75, threshold_value := 70,
    severity := .warning, message := generate_alert_message .cpu 75 70 .warning,
    acknowledged := false }

/-- Witness for C10 at a concrete input: a second warning crossing at
value 80 refreshes the stored row in place, keeping everything but
`metric_value` and `timestamp`. -/
theorem C10_update_touches_only_value_timestamp_witness :
    ∃ l₁ l₂, exampleStore.alerts = l₁ ++ exampleAlert :: l₂ ∧
      (check_metric .cpu 80 (THRESHOLDS .cpu) true exampleStore 2).2.alerts =
        l₁ ++ { exampleAlert with metric_value := 80, timestamp := 2 } :: l₂ := by
  obtain ⟨l₁, l₂, h1, h2, _⟩ :=
    C10_update_touches_only_value_timestamp .cpu 80 (THRESHOLDS .cpu) true exampleStore 2
      exampleAlert (by decide)
  exact ⟨l₁, l₂, h1, h2⟩

/-! Claim C6 -/

/-- Claim C6: acknowledgment retires the dedup target.  If the dedup query
finds the unacknowledged `(k, s)` alert `e` in a store satisfying the
per-pair uniqueness bound and holding at most one row per id, then after
`acknowledge_alert e.id` (which reports success) the next crossing of the
same `(k, s)` yields `Created` of a fresh row with `acknowledged = false`
and a fresh id, appended after all existing rows — the acknowledged record
is not mutated (not `Updated`) by that crossing. -/
theorem C6_ack_then_fresh_create (k : MetricKind) (s : Severity) (t v : ℚ) (db : Store)
    (e : Alert) (now : Nat)
    (hcross : crossedSeverity v (THRESHOLDS k) (higherIsWorse k) = some (s, t))
    (hfind : findUnack db k s = some e)
    (hcount : db.alerts.countP (unackMatch k s) ≤ 1)
    (hids : ∀ x ∈ db.alerts, db.alerts.countP (fun a => decide (a.id = x.id)) ≤ 1) :
    (acknowledge_alert e.id db).1 = true ∧
    findUnack (acknowledge_alert e.id db).2 k s = none ∧
    ∃ a, check_metric k v (THRESHOLDS k) (higherIsWorse k) (acknowledge_alert e.id db).2 now =
        (.Created a,
          { alerts := (acknowledge_alert e.id db).2.alerts ++ [a],
            nextId := (acknowledge_alert e.id db).2.nextId + 1 }) ∧
      a.acknowledged = false ∧ a.id = (acknowledge_alert e.id db).2.nextId := by
  have hmem : e ∈ db.alerts := List.mem_of_find?_eq_some hfind
  have hpe : unackMatch k s e = true := List.find?_some hfind
  have hsome : ∃ x, db.alerts.find? (fun a => decide (a.id = e.id)) = some x := by
    cases hx : db.alerts.find? (fun a => decide (a.id = e.id)) with
    | none =>
      exact absurd (by simp : decide (e.id = e.id) = true)
        (List.find?_eq_none.mp hx e hmem)
    | some x => exact ⟨x, rfl⟩
  obtain ⟨x, hx⟩ := hsome
  obtain ⟨m₁, m₂, hm, hpre, hpx⟩ :=
    find?_decomp (fun (a : Alert) => decide (a.id = e.id)) hx
  have hxe : x = e := by
    have hmem2 := hmem
    rw [hm] at hmem2
    rcases List.mem_append.mp hmem2 with h1 | h2
    · exact absurd (hpre e h1) (by simp)
    · rcases List.mem_cons.mp h2 with h3 | h4
      · exact h3.symm
      · exfalso
        have hcnt := hids e hmem
        rw [hm, List.countP_append, List.countP_cons, if_pos hpx] at hcnt
        have hone : 0 < List.countP (fun a => decide (a.id = e.id)) m₂ :=
          List.countP_pos_iff.mpr ⟨e, h4, by simp⟩
        omega
  subst hxe
  have hack : acknowledge_alert x.id db =
      (true, { db with alerts := m₁ ++ { x with acknowledged := true } :: m₂ }) := by
    unfold acknowledge_alert
    rw [hx]
    rw [hm, updateFirst_append_of (fun a => decide (a.id = x.id))
      (fun a => { a with acknowledged := true }) m₁ x m₂ hpre hpx]
  have hc0 : List.countP (unackMatch k s) m₁ = 0 ∧ List.countP (unackMatch k s) m₂ = 0 := by
    rw [hm, List.countP_append, List.countP_cons, if_pos hpe] at hcount
    constructor <;> omega
  have hnone2 : (m₁ ++ { x with acknowledged := true } :: m₂).find? (unackMatch k s) = none := by
    apply List.find?_eq_none.mpr
    intro y hy
    rcases List.mem_append.mp hy with h1 | h2
    · have := List.countP_eq_zero.mp hc0.1 y h1
      simpa using this
    · rcases List.mem_cons.mp h2 with rfl | h3
      · simp [unackMatch]
      · have := List.countP_eq_zero.mp hc0.2 y h3
        simpa using this
  rw [hack]
  refine ⟨rfl, hnone2, ?_⟩
  have hcreated := check_metric_Created k v (THRESHOLDS k) (higherIsWorse k)
    { db with alerts := m₁ ++ { x with acknowledged := true } :: m₂ } now s t hcross hnone2
  exact ⟨_, hcreated, rfl, rfl⟩

/-- Witness for C6 at a concrete input: acknowledging the single warning
alert of `exampleStore` and feeding the crossing value 75 again yields a
fresh `Created` row. -/
theorem C6_ack_then_fresh_create_witness :
    (acknowledge_alert exampleAlert.id exampleStore).1 = true ∧
    findUnack (acknowledge_alert exampleAlert.id exampleStore).2 .cpu .warning = none ∧
    ∃ a, check_metric .cpu 75 (THRESHOLDS .cpu) (higherIsWorse .cpu)
        (acknowledge_alert exampleAlert.id exampleStore).2 9 =
        (.Created a,
          { alerts := (acknowledge_alert exampleAlert.id exampleStore).2.alerts ++ [a],
            nextId := (acknowledge_alert exampleAlert.id exampleStore).2.nextId + 1 }) ∧
      a.acknowledged = false ∧
      a.id = (acknowledge_alert exampleAlert.id exampleStore).2.nextId :=
  C6_ack_then_fresh_create .cpu .warning 70 75 exampleStore exampleAlert 9
    (by decide) (by decide) (by decide) (by decide)

/-! Claim C9 -/

/-- Claim C9: message format.  `generate_alert_message` produces exactly the
spec's template (`specMessage`): emoji by severity (⚠️ warning, 🔴
critical), upper-cased severity, the kind's display name, "is high at" for
cpu/memory/disk and "is low at" for battery, then the value and crossed
threshold; being a pure function of (kind, value, threshold, severity) it
is deterministic.  Moreover every row that `check_metric` creates carries
exactly this message for its own kind, value, threshold and severity. -/
theorem C9_message_format :
    (∀ (k : MetricKind) (v t : ℚ) (s : Severity),
      generate_alert_message k v t s = specMessage k v t s) ∧
    (∀ (k : MetricKind) (v : ℚ) (th : Thresholds) (hiw : Bool) (db : Store) (now : Nat)
      (a : Alert), (check_metric k v th hiw db now).1 = .Created a →
      a.message = specMessage a.metric_type a.metric_value a.threshold_value a.severity) := by
  have hfmt : ∀ (k : MetricKind) (v t : ℚ) (s : Severity),
      generate_alert_message k v t s = specMessage k v t s := by
    intro k v t s
    cases k <;> cases s <;> rfl
  refine ⟨hfmt, ?_⟩
  intro k v th hiw db now a ha
  cases hcs : crossedSeverity v th hiw with
  | none =>
    rw [check_metric_NoChange k v th hiw db now hcs] at ha
    simp at ha
  | some st =>
    obtain ⟨s, t⟩ := st
    cases hf : findUnack db k s with
    | some e0 =>
      rw [check_metric_Updated k v th hiw db now s t e0 hcs hf] at ha
      simp at ha
    | none =>
      rw [check_metric_Created k v th hiw db now s t hcs hf] at ha
      obtain rfl : _ = a := by simpa using ha
      exact hfmt k v t s

/-- Witness for C9's second part at a concrete input: the row created by a
memory sample of 95 (a critical crossing) carries the spec's template. -/
theorem C9_message_format_witness :
    ∃ a, (check_metric .memory 95 (THRESHOLDS .memory) true store0 3).1 = .Created a ∧
      a.message = specMessage a.metric_type a.metric_value a.threshold_value a.severity := by
  refine ⟨{ id := 0, timestamp := 3, metric_type := .memory, metric_value := 95,
            threshold_value := 90, severity := .critical,
            message := generate_alert_message .memory 95 90 .critical,
            acknowledged := false }, ?_, ?_⟩
  · decide
  · exact C9_message_format.2 .memory 95 (THRESHOLDS .memory) true store0 3 _ (by decide)

/-! Claim C5 -/

theorem mem_appendCreated {a : Alert} {l : List Alert} {o : Outcome}
    (h : a ∈ appendCreated l o) : a ∈ l ∨ o = .Created a := by
  cases o with
  | Created b =>
    simp only [appendCreated] at h
    rcases List.mem_append.mp h with h1 | h2
    · exact Or.inl h1
    · simp only [List.mem_singleton] at h2
      subst h2
      exact Or.inr rfl
  | Updated b => exact Or.inl h
  | NoChange => exact Or.inl h

theorem check_metric_Created_metric_type (k : MetricKind) (v : ℚ) (th : Thresholds)
    (hiw : Bool) (db : Store) (now : Nat) (a : Alert)
    (ha : (check_metric k v th hiw db now).1 = .Created a) : a.metric_type = k := by
  cases hcs : crossedSeverity v th hiw with
  | none =>
    rw [check_metric_NoChange k v th hiw db now hcs] at ha
    simp at ha
  | some st =>
    obtain ⟨s, t⟩ := st
    cases hf : findUnack db k s with
    | some e0 =>
      rw [check_metric_Updated k v th hiw db now s t e0 hcs hf] at ha
      simp at ha
    | none =>
      rw [check_metric_Created k v th hiw db now s t hcs hf] at ha
      obtain rfl : _ = a := by simpa using ha
      rfl

/-- One evaluation for kind `k` never touches rows of other kinds: any
filter that ignores value/timestamp changes and rejects kind-`k` rows is
preserved. -/
theorem check_metric_filter_frame (k : MetricKind) (v : ℚ) (th : Thresholds) (hiw : Bool)
    (db : Store) (now : Nat) (p : Alert → Bool)
    (hp : ∀ a : Alert, a.metric_type = k → p a = false)
    (hpf : ∀ a : Alert, p { a with metric_value := v, timestamp := now } = p a) :
    ((check_metric k v th hiw db now).2).alerts.filter p = db.alerts.filter p := by
  cases hcs : crossedSeverity v th hiw with
  | none =>
    rw [check_metric_NoChange k v th hiw db now hcs]
  | some st =>
    obtain ⟨s, t⟩ := st
    cases hf : findUnack db k s with
    | some e0 =>
      rw [check_metric_Updated k v th hiw db now s t e0 hcs hf]
      obtain ⟨l₁, l₂, hl, h₁, h₂⟩ := find?_decomp (unackMatch k s) hf
      have htype : e0.metric_type = k := by
        have := h₂
        simp only [unackMatch, Bool.and_eq_true, decide_eq_true_eq] at this
        exact this.1.1
      have hpe0 : p e0 = false := hp e0 htype
      have hpu : p { e0 with metric_value := v, timestamp := now } = false :=
        (hpf e0).trans hpe0
      show (updateFirst _ _ db.alerts).filter p = _
      rw [hl, updateFirst_append_of _ _ l₁ e0 l₂ h₁ h₂, List.filter_append,
        List.filter_append, List.filter_cons_of_neg (by simp [hpu]),
        List.filter_cons_of_neg (by simp [hpe0])]
    | none =>
      rw [check_metric_Created k v th hiw db now s t hcs hf]
      show (db.alerts ++ [_]).filter p = _
      have hrec : p ⟨db.nextId, now, k, v, t, s, generate_alert_message k v t s, false⟩ = false :=
        hp _ rfl
      rw [List.filter_append, List.filter_cons_of_neg (by simp [hrec])]
      simp

/-- With no battery reading, `check_and_create_alerts` creates only
cpu/memory/disk rows. -/
theorem check_and_create_alerts_no_battery (mc mm md : ℚ) (db : Store) (now : Nat) :
    ∀ a ∈ (check_and_create_alerts ⟨mc, mm, md, none⟩ db now).1,
      a.metric_type ≠ .battery := by
  intro a ha
  have ha' : a ∈ appendCreated (appendCreated (appendCreated []
      (check_metric .cpu mc (THRESHOLDS .cpu) true db now).1)
      (check_metric .memory mm (THRESHOLDS .memory) true
        (check_metric .cpu mc (THRESHOLDS .cpu) true db now).2 now).1)
      (check_metric .disk md (THRESHOLDS .disk) true
        (check_metric .memory mm (THRESHOLDS .memory) true
          (check_metric .cpu mc (THRESHOLDS .cpu) true db now).2 now).2 now).1 := ha
  rcases mem_appendCreated ha' with h3 | h3
  · rcases mem_appendCreated h3 with h2 | h2
    · rcases mem_appendCreated h2 with h1 | h1
      · simp at h1
      · rw [check_metric_Created_metric_type _ _ _ _ _ _ _ h1]
        simp
    · rw [check_metric_Created_metric_type _ _ _ _ _ _ _ h2]
      simp
  · rw [check_metric_Created_metric_type _ _ _ _ _ _ _ h3]
    simp

/-- With no battery reading, the battery rows of the store are untouched
by a full evaluation pass. -/
theorem check_and_create_alerts_battery_frame (mc mm md : ℚ) (db : Store) (now : Nat) :
    ((check_and_create_alerts ⟨mc, mm, md, none⟩ db now).2).alerts.filter
        (fun a => decide (a.metric_type = .battery)) =
      db.alerts.filter (fun a => decide (a.metric_type = .battery)) := by
  have hpf : ∀ (v : ℚ) (n : Nat) (a : Alert),
      (fun a : Alert => decide (a.metric_type = .battery))
          { a with metric_value := v, timestamp := n } =
        (fun a : Alert => decide (a.metric_type = .battery)) a := by
    intro v n a
    cases a
    rfl
  have h1 := check_metric_filter_frame .cpu mc (THRESHOLDS .cpu) true db now
    (fun a => decide (a.metric_type = .battery))
    (fun a h => by simp [h]) (hpf mc now)
  have h2 := check_metric_filter_frame .memory mm (THRESHOLDS .memory) true
    (check_metric .cpu mc (THRESHOLDS .cpu) true db now).2 now
    (fun a => decide (a.metric_type = .battery))
    (fun a h => by simp [h]) (hpf mm now)
  have h3 := check_metric_filter_frame .disk md (THRESHOLDS .disk) true
    (check_metric .memory mm (THRESHOLDS .memory) true
      (check_metric .cpu mc (THRESHOLDS .cpu) true db now).2 now).2 now
    (fun a => decide (a.metric_type = .battery))
    (fun a h => by simp [h]) (hpf md now)
  exact (h3.trans h2).trans h1

/-- Claim C5: a plugged-in battery is never evaluated.  When the battery
reading is present with `is_plugged = true`, the whole evaluation pass is
identical to the pass over the same record with the battery reading
absent: no battery outcome is produced, no created alert is of battery
kind, and the battery rows already in the store are untouched — even if
the percent is at or below the critical threshold. -/
theorem C5_plugged_battery_never_alerts (m : MetricsRecord) (db : Store) (now : Nat)
    (b : BatteryReading) (hb : m.battery = some b) (hplug : b.is_plugged = true) :
    check_and_create_alerts m db now =
      check_and_create_alerts { m with battery := none } db now ∧
    (∀ a ∈ (check_and_create_alerts m db now).1, a.metric_type ≠ .battery) ∧
    ((check_and_create_alerts m db now).2).alerts.filter
        (fun a => decide (a.metric_type = .battery)) =
      db.alerts.filter (fun a => decide (a.metric_type = .battery)) := by
  obtain ⟨mc, mm, md, mb⟩ := m
  simp only at hb
  subst hb
  have heq : check_and_create_alerts ⟨mc, mm, md, some b⟩ db now =
      check_and_create_alerts ⟨mc, mm, md, none⟩ db now := by
    unfold check_and_create_alerts
    simp [hplug]
  refine ⟨heq, ?_, ?_⟩
  · rw [heq]
    exact check_and_create_alerts_no_battery mc mm md db now
  · rw [heq]
    exact check_and_create_alerts_battery_frame mc mm md db now

/-- Witness for C5 at a concrete input: battery at 5% (below critical)
but plugged in, with all other metrics nominal, produces no alert at all
and leaves the empty store as if the battery were absent. -/
theorem C5_plugged_battery_never_alerts_witness :
    check_and_create_alerts
        { cpu_usage_percent := 10, memory_usage_percent := 10, disk_usage_percent := 10,
          battery := some { percent := 5, is_plugged := true } } store0 4 =
      check_and_create_alerts
        { cpu_usage_percent := 10, memory_usage_percent := 10, disk_usage_percent := 10,
          battery := none } store0 4 :=
  (C5_plugged_battery_never_alerts
    { cpu_usage_percent := 10, memory_usage_percent := 10, disk_usage_percent := 10,
      battery := some { percent := 5, is_plugged := true } } store0 4
    { percent := 5, is_plugged := true } rfl rfl).1

/-! scheduler.py -/

/-- The database visible to a session: persisted snapshots plus the alerts
table. -/
structure DBState where
  snapshots : List MetricsRecord
  alerts : Store
deriving DecidableEq, Repr

/-- A SQLAlchemy session over the database: the durable committed state
and the session's working (pending) state.  `commit` publishes pending
work; `rollback` discards it. -/
structure Session where
  committed : DBState
  pending : DBState
deriving DecidableEq, Repr

/-- Python's `SessionLocal()`: a fresh session over the committed database. -/
def newSession (d : DBState) : Session := { committed := d, pending := d }

/-- Python's `db.commit()`. -/
def commitSession (s : Session) : Session := { committed := s.pending, pending := s.pending }

/-- Python's `db.rollback()`. -/
def rollbackSession (s : Session) : Session := { committed := s.committed, pending := s.committed }

/-- The steps of a tick at which an exception can be raised
(`get_all_metrics`, the snapshot add/commit, `check_and_create_alerts`). -/
inductive TickStep
  | sampling
  | persistence
  | alertEval
deriving DecidableEq, Repr

/-- The error classes of §7 that a tick can raise. -/
inductive TickErr
  | sampler
  | store
deriving DecidableEq, Repr

/-- One tick's environment: the metrics the sampler would return and an
injected failure point (`none` = every step succeeds). -/
structure TickInput where
  metrics : MetricsRecord
  failAt : Option TickStep
deriving DecidableEq, Repr

/-- What one tick prints. -/
inductive TickLog
  | errorSaving (e : TickErr)
  | saved (newAlertCount : Nat)
deriving DecidableEq, Repr

/-- The `try:` block of `collect_and_save_metrics` (scheduler.py lines
31-67): sample, stage and commit the snapshot, then evaluate alerts (each
alert write commits inside `check_metric`).  An error carries the session
as it stood when the exception was raised. -/
def tickBody (inp : TickInput) (now : Nat) (s : Session) :
    Except (TickErr × Session) (Session × List Alert) :=
  if inp.failAt = some .sampling then .error (.sampler, s)
  else
    let s1 : Session :=
      { s with pending := { s.pending with snapshots := s.pending.snapshots ++ [inp.metrics] } }
    if inp.failAt = some .persistence then .error (.store, s1)
    else
      let s2 := commitSession s1
      if inp.failAt = some .alertEval then .error (.store, s2)
      else
        let r := check_and_create_alerts inp.metrics s2.pending.alerts now
        let s3 := commitSession { s2 with pending := { s2.pending with alerts := r.2 } }
        .ok (s3, r.1)

/-- The result of one tick, after the session is closed: the durable
database, what was printed, and whether the `except` handler ran. -/
structure TickResult where
  db : DBState
  log : TickLog
  rolledBack : Bool
deriving DecidableEq, Repr

/-- The function `collect_and_save_metrics` (scheduler.py lines 20-73): open a session,
run the tick body, catch any error (log it, roll the session back), and
close the session on every path.  Total: a tick never raises. -/
def collect_and_save_metrics (inp : TickInput) (now : Nat) (d : DBState) : TickResult :=
  match tickBody inp now (newSession d) with
  | .ok (s, newAlerts) =>
    { db := s.committed, log := .saved newAlerts.length, rolledBack := false }
  | .error (e, s) =>
    { db := (rollbackSession s).committed, log := .errorSaving e, rolledBack := true }

/-- The scheduling loop: each tick runs `collect_and_save_metrics` on the
database left by the previous tick, whatever the previous tick's outcome
was. -/
def run_scheduler (ticks : List (TickInput × Nat)) (d : DBState) : DBState × List TickResult :=
  match ticks with
  | [] => (d, [])
  | (inp, now) :: rest =>
    let r := collect_and_save_metrics inp now d
    let rec' := run_scheduler rest r.db
    (rec'.1, r :: rec'.2)

/-! Claim C8 -/

/-- Claim C8: tick error containment.  A failure injected at any step of a
tick is caught: the tick returns normally with the error logged and the
uncommitted work rolled back — a sampling or snapshot-persistence failure
leaves the database exactly as it was, and an alert-evaluation failure
keeps only the already-committed snapshot.  A failure-free tick commits
the snapshot and the alert writes.  Consequently the scheduling loop
produces one result per scheduled tick no matter which ticks fail: no
tick error ever stops the loop. -/
theorem C8_tick_error_containment (inp : TickInput) (now : Nat) (d : DBState) :
    (inp.failAt = some .sampling →
      collect_and_save_metrics inp now d =
        { db := d, log := .errorSaving .sampler, rolledBack := true }) ∧
    (inp.failAt = some .persistence →
      collect_and_save_metrics inp now d =
        { db := d, log := .errorSaving .store, rolledBack := true }) ∧
    (inp.failAt = some .alertEval →
      collect_and_save_metrics inp now d =
        { db := { snapshots := d.snapshots ++ [inp.metrics], alerts := d.alerts },
          log := .errorSaving .store, rolledBack := true }) ∧
    (inp.failAt = none →
      collect_and_save_metrics inp now d =
        { db := { snapshots := d.snapshots ++ [inp.metrics],
                  alerts := (check_and_create_alerts inp.metrics d.alerts now).2 },
          log := .saved (check_and_create_alerts inp.metrics d.alerts now).1.length,
          rolledBack := false }) ∧
    (∀ (ticks : List (TickInput × Nat)) (d0 : DBState),
      (run_scheduler ticks d0).2.length = ticks.length) := by
  have hlen : ∀ (ticks : List (TickInput × Nat)) (d0 : DBState),
      (run_scheduler ticks d0).2.length = ticks.length := by
    intro ticks
    induction ticks with
    | nil => intro d0; rfl
    | cons t rest ih =>
      intro d0
      obtain ⟨inp', now'⟩ := t
      simp [run_scheduler, ih]
  refine ⟨?_, ?_, ?_, ?_, hlen⟩
  · intro h
    simp [collect_and_save_metrics, tickBody, h, newSession, rollbackSession]
  · intro h
    simp [collect_and_save_metrics, tickBody, h, newSession, commitSession, rollbackSession]
  · intro h
    simp [collect_and_save_metrics, tickBody, h, newSession, commitSession, rollbackSession]
  · intro h
    simp [collect_and_save_metrics, tickBody, h, newSession, commitSession]

/-- Witness for C8 at a concrete input: a tick whose snapshot persistence
fails leaves the empty database untouched, logs the store error, rolls
back, and does not raise. -/
theorem C8_tick_error_containment_witness :
    collect_and_save_metrics
        { metrics := { cpu_usage_percent := 50, memory_usage_percent := 50,
                       disk_usage_percent := 50, battery := none },
          failAt := some .persistence } 0
        { snapshots := [], alerts := store0 } =
      { db := { snapshots := [], alerts := store0 },
        log := .errorSaving .store, rolledBack := true } :=
  (C8_tick_error_containment
    { metrics := { cpu_usage_percent := 50, memory_usage_percent := 50,
                   disk_usage_percent := 50, battery := none },
      failAt := some .persistence } 0
    { snapshots := [], alerts := store0 }).2.1 rfl
